import Mathlib

/-!
Verification of the quantity-extraction, aggregation, spec-parsing and
intent-routing core of the IFC conversational assistant
(`ifc_processor.py`).  The Python code is shallowly embedded: IFC
entities become explicit records of the attributes the code inspects,
floats become rationals, dictionaries become association lists in
insertion order, and `re.search` is modelled by a deterministic
leftmost scan (the two patterns involved never need backtracking).
-/

namespace IfcCore

attribute [local semireducible] Rat.add Rat.mul Rat.sub Rat.inv Rat.ofScientific

/-! ## Python string primitives -/

/-- Model of Python `str.lower` applied characterwise (ASCII case). -/
def pyLower (s : List Char) : List Char := s.map Char.toLower

/-- `leadsWith n h` is true when `n` occurs at the very start of `h`. -/
def leadsWith : List Char → List Char → Bool
  | [], _ => true
  | _ :: _, [] => false
  | a :: as, b :: bs => a == b && leadsWith as bs

/-- Model of the Python substring test `needle in haystack`. -/
def containsSub (needle : List Char) : List Char → Bool
  | [] => leadsWith needle []
  | c :: rest => leadsWith needle (c :: rest) || containsSub needle rest

/-! ## Data model

Each IFC object is reduced to the attributes `calculate_plastering_area`
and `get_space_info` actually read: the `IsDefinedBy` relationship list
(with the `is_a` type tests modelled as flags) and the property-set
dictionary returned by `get_psets`. -/

/-- A member of `IfcElementQuantity.Quantities`: the code keeps it only
when `is_a('IfcQuantityArea')` holds, and then reads `AreaValue`. -/
structure IfcQuantity where
  isQuantityArea : Bool
  areaValue : ℚ
deriving DecidableEq

/-- The `RelatingPropertyDefinition` of a relationship. -/
structure IfcPropDef where
  isElementQuantity : Bool
  quantities : List IfcQuantity
deriving DecidableEq

/-- A member of an entity's `IsDefinedBy` list. -/
structure IfcDefinition where
  isRelDefinesByProperties : Bool
  relatingPropertyDefinition : IfcPropDef
deriving DecidableEq

/-- One key/value pair of a property set; `isNumeric` models
`isinstance(value, (int, float))`. -/
structure PsetEntry where
  key : List Char
  isNumeric : Bool
  value : ℚ
deriving DecidableEq

/-- One property set; `isDict` models `isinstance(pset_data, dict)` and
`entries` keeps the dictionary's insertion order. -/
structure Pset where
  isDict : Bool
  entries : List PsetEntry
deriving DecidableEq

/-- An IFC entity (wall or space) as seen by the aggregation code. -/
structure IfcEntity where
  isDefinedBy : List IfcDefinition
  psets : List Pset
deriving DecidableEq

/-- The `data_source` strings of the result dictionaries. -/
inductive DataSource where
  | NONE
  | IFC_ELEMENT_QUANTITY
  | IFC_PROPERTY_SETS
deriving DecidableEq

/-- The `confidence` strings of the result dictionaries. -/
inductive Confidence where
  | NONE
  | LOW
  | MEDIUM
  | HIGH
deriving DecidableEq

/-! ## `calculate_plastering_area` -/

/-- The result dictionary of `calculate_plastering_area` (unit and note
strings omitted: they carry no data the claims mention). -/
structure PlasterResult where
  total_walls : ℕ
  total_area : ℚ
  walls_with_area : ℕ
  data_source : DataSource
  confidence : Confidence
deriving DecidableEq

/-- The keyword the property-set scan looks for. -/
def areaKw : List Char := "area".toList

/-- The test `'area' in key.lower() and isinstance(value, (int, float))`. -/
def psetEntryMatches (e : PsetEntry) : Bool :=
  containsSub areaKw (pyLower e.key) && e.isNumeric

/-- METHOD 1, innermost loop body: one quantity of an element quantity. -/
def method1Quantity (acc : PlasterResult) (q : IfcQuantity) : PlasterResult :=
  if q.isQuantityArea then
    { acc with
      total_area := acc.total_area + q.areaValue
      walls_with_area := acc.walls_with_area + 1
      data_source := DataSource.IFC_ELEMENT_QUANTITY
      confidence := Confidence.HIGH }
  else acc

/-- METHOD 1, one member of `IsDefinedBy`. -/
def method1Definition (acc : PlasterResult) (d : IfcDefinition) : PlasterResult :=
  if d.isRelDefinesByProperties && d.relatingPropertyDefinition.isElementQuantity then
    d.relatingPropertyDefinition.quantities.foldl method1Quantity acc
  else acc

/-- METHOD 1, one wall. -/
def method1Wall (acc : PlasterResult) (w : IfcEntity) : PlasterResult :=
  w.isDefinedBy.foldl method1Definition acc

/-- METHOD 2, one property set: the first matching entry is added and
the inner loop `break`s (the outer loop over psets continues). -/
def method2Pset (acc : PlasterResult) (p : Pset) : PlasterResult :=
  if p.isDict then
    match p.entries.find? psetEntryMatches with
    | some e =>
      { acc with
        total_area := acc.total_area + e.value
        walls_with_area := acc.walls_with_area + 1
        data_source := DataSource.IFC_PROPERTY_SETS
        confidence := Confidence.MEDIUM }
    | none => acc
  else acc

/-- METHOD 2, one wall. -/
def method2Wall (acc : PlasterResult) (w : IfcEntity) : PlasterResult :=
  w.psets.foldl method2Pset acc

/-- The initial `result` dictionary of `calculate_plastering_area`. -/
def plasterInit (walls : List IfcEntity) : PlasterResult :=
  { total_walls := walls.length
    total_area := 0
    walls_with_area := 0
    data_source := DataSource.NONE
    confidence := Confidence.LOW }

/-- State after the METHOD 1 loop over all walls. -/
def structuredPass (walls : List IfcEntity) : PlasterResult :=
  walls.foldl method1Wall (plasterInit walls)

/-- The aggregate METHOD 1 total, which gates the fallback. -/
def wallsStructuredTotal (walls : List IfcEntity) : ℚ :=
  (structuredPass walls).total_area

/-- State after the `if result["total_area"] == 0` fallback block. -/
def fallbackPass (walls : List IfcEntity) : PlasterResult :=
  if (structuredPass walls).total_area = 0 then
    walls.foldl method2Wall (structuredPass walls)
  else structuredPass walls

/-- The final-result evaluation block (`if result["total_area"] > 0`). -/
def finalEval (n : ℕ) (r : PlasterResult) : PlasterResult :=
  if 0 < r.total_area then
    (if r.walls_with_area = n then r
     else { r with confidence := Confidence.MEDIUM })
  else
    { r with data_source := DataSource.NONE, confidence := Confidence.NONE }

/-- `IFCProcessor.calculate_plastering_area`. -/
def calculate_plastering_area (walls : List IfcEntity) : PlasterResult :=
  if walls.length = 0 then
    { plasterInit walls with
      data_source := DataSource.NONE
      confidence := Confidence.NONE }
  else finalEval walls.length (fallbackPass walls)

/-! ## `get_space_info` -/

/-- The result dictionary of `get_space_info` (the per-space `spaces`
list is omitted: no claim mentions it). -/
structure SpaceResult where
  total_spaces : ℕ
  total_area : ℚ
  data_source : DataSource
  confidence : Confidence
deriving DecidableEq

/-- Structured-quantity step for one quantity of a space. -/
def spaceM1Quantity (acc : SpaceResult) (q : IfcQuantity) : SpaceResult :=
  if q.isQuantityArea then
    { acc with
      total_area := acc.total_area + q.areaValue
      data_source := DataSource.IFC_ELEMENT_QUANTITY
      confidence := Confidence.HIGH }
  else acc

/-- Structured-quantity step for one member of a space's `IsDefinedBy`. -/
def spaceM1Definition (acc : SpaceResult) (d : IfcDefinition) : SpaceResult :=
  if d.isRelDefinesByProperties && d.relatingPropertyDefinition.isElementQuantity then
    d.relatingPropertyDefinition.quantities.foldl spaceM1Quantity acc
  else acc

/-- Structured-quantity pass over one space. -/
def spaceM1 (acc : SpaceResult) (s : IfcEntity) : SpaceResult :=
  s.isDefinedBy.foldl spaceM1Definition acc

/-- Property-set fallback for one property set of a space. -/
def spaceM2Pset (acc : SpaceResult) (p : Pset) : SpaceResult :=
  if p.isDict then
    match p.entries.find? psetEntryMatches with
    | some e =>
      { acc with
        total_area := acc.total_area + e.value
        data_source := DataSource.IFC_PROPERTY_SETS
        confidence := Confidence.MEDIUM }
    | none => acc
  else acc

/-- The loop body of `get_space_info` for one space: structured
quantities first, then — when the *running* total is still zero — the
property-set scan of this same space. -/
def spaceStep (acc : SpaceResult) (s : IfcEntity) : SpaceResult :=
  if (spaceM1 acc s).total_area = 0 then
    s.psets.foldl spaceM2Pset (spaceM1 acc s)
  else spaceM1 acc s

/-- The initial `result` dictionary of `get_space_info`. -/
def spaceInit (spaces : List IfcEntity) : SpaceResult :=
  { total_spaces := spaces.length
    total_area := 0
    data_source := DataSource.NONE
    confidence := Confidence.LOW }

/-- `IFCProcessor.get_space_info`. -/
def get_space_info (spaces : List IfcEntity) : SpaceResult :=
  if spaces.length = 0 then spaceInit spaces
  else spaces.foldl spaceStep (spaceInit spaces)

/-- The structured-quantity aggregate across all spaces (what a
category-wide fallback gate would test). -/
def spacesStructuredTotal (spaces : List IfcEntity) : ℚ :=
  (spaces.foldl spaceM1 (spaceInit spaces)).total_area

/-! ## `calculate_plastering_volume` -/

/-- Python's `round(x, n)` idealised over the rationals: round half to
even at the n-th decimal place. -/
def roundHalfEven (x : ℚ) : ℤ :=
  if x - ⌊x⌋ < 1 / 2 then ⌊x⌋
  else if 1 / 2 < x - ⌊x⌋ then ⌊x⌋ + 1
  else if ⌊x⌋ % 2 = 0 then ⌊x⌋ else ⌊x⌋ + 1

/-- Rounding to `n` decimal places. -/
def roundTo (x : ℚ) (n : ℕ) : ℚ :=
  (roundHalfEven (x * 10 ^ n) : ℚ) / 10 ^ n

/-- The local variable `volume_m3` before rounding. -/
def rawVolumeM3 (area thickness_mm : ℚ) (num_coats : ℕ) : ℚ :=
  area * (thickness_mm / 1000 * num_coats)

/-- The local variable `volume_liters` before rounding. -/
def rawVolumeLiters (area thickness_mm : ℚ) (num_coats : ℕ) : ℚ :=
  rawVolumeM3 area thickness_mm num_coats * 1000

/-- The error string of the zero-area failure dictionary. -/
def noAreaMsg : List Char := "No wall area data available in IFC file".toList

/-- The success dictionary of `calculate_plastering_volume`
(the `calculation` display string is omitted). -/
structure VolumeOk where
  material_type : List Char
  wall_area_sqm : ℚ
  thickness_per_coat_mm : ℚ
  thickness_per_coat_m : ℚ
  num_coats : ℕ
  total_thickness_mm : ℚ
  total_thickness_m : ℚ
  volume_m3 : ℚ
  volume_liters : ℚ
  data_source : DataSource
  confidence : Confidence
deriving DecidableEq

/-- Either of the two dictionary shapes `calculate_plastering_volume`
returns: `success: False` with an error, or `success: True`. -/
inductive VolumeResult where
  | failure (error : List Char) (volume : ℚ) (details : PlasterResult)
  | ok (r : VolumeOk)
deriving DecidableEq

/-- `IFCProcessor.calculate_plastering_volume`. -/
def calculate_plastering_volume (walls : List IfcEntity) (thickness_mm : ℚ)
    (num_coats : ℕ) (material_type : List Char) : VolumeResult :=
  if (calculate_plastering_area walls).total_area = 0 then
    VolumeResult.failure noAreaMsg 0 (calculate_plastering_area walls)
  else
    VolumeResult.ok
      { material_type := material_type
        wall_area_sqm := (calculate_plastering_area walls).total_area
        thickness_per_coat_mm := thickness_mm
        thickness_per_coat_m := thickness_mm / 1000
        num_coats := num_coats
        total_thickness_mm := thickness_mm * num_coats
        total_thickness_m := thickness_mm / 1000 * num_coats
        volume_m3 :=
          roundTo (rawVolumeM3 (calculate_plastering_area walls).total_area
            thickness_mm num_coats) 4
        volume_liters :=
          roundTo (rawVolumeLiters (calculate_plastering_area walls).total_area
            thickness_mm num_coats) 2
        data_source := (calculate_plastering_area walls).data_source
        confidence := (calculate_plastering_area walls).confidence }

/-! ## `extract_plastering_specs` -/

/-- Value of a run of decimal digits. -/
def digitsVal (ds : List Char) : ℕ :=
  ds.foldl (fun a c => 10 * a + (c.toNat - 48)) 0

/-- Attempt the pattern `(\d+\.?\d*)\s*mm` anchored at the head of `s`,
returning the captured number.  For this pattern the greedy
left-to-right reading needs no backtracking, so the model is a direct
scan. -/
def matchMM (s : List Char) : Option ℚ :=
  if (s.takeWhile Char.isDigit).length = 0 then none
  else
    have ds := s.takeWhile Char.isDigit
    have r1 := s.drop ds.length
    have fds := match r1 with
      | '.' :: r => r.takeWhile Char.isDigit
      | _ => []
    have r2 := match r1 with
      | '.' :: r => r.drop (r.takeWhile Char.isDigit).length
      | _ => r1
    match r2.dropWhile Char.isWhitespace with
    | 'm' :: 'm' :: _ =>
      some ((digitsVal ds : ℚ) + (digitsVal fds : ℚ) / (10 : ℚ) ^ fds.length)
    | _ => none

/-- `re.search` for the thickness pattern: leftmost position wins. -/
def searchThicknessMM : List Char → Option ℚ
  | [] => none
  | c :: rest =>
    match matchMM (c :: rest) with
    | some v => some v
    | none => searchThicknessMM rest

/-- Attempt the pattern `(\d+)\s*coats?` anchored at the head of `s`. -/
def matchCoat (s : List Char) : Option ℕ :=
  if (s.takeWhile Char.isDigit).length = 0 then none
  else
    match (s.drop (s.takeWhile Char.isDigit).length).dropWhile Char.isWhitespace with
    | 'c' :: 'o' :: 'a' :: 't' :: _ => some (digitsVal (s.takeWhile Char.isDigit))
    | _ => none

/-- `re.search` for the digit-coat pattern: leftmost position wins. -/
def searchDigitCoat : List Char → Option ℕ
  | [] => none
  | c :: rest =>
    match matchCoat (c :: rest) with
    | some v => some v
    | none => searchDigitCoat rest

/-- The `word_numbers` dictionary, in insertion order. -/
def word_numbers : List (List Char × ℕ) :=
  [("one".toList, 1), ("two".toList, 2), ("three".toList, 3),
   ("four".toList, 4), ("five".toList, 5),
   ("single".toList, 1), ("double".toList, 2), ("triple".toList, 3)]

/-- The word-number loop: first entry whose `"<word> coat"` phrase
occurs in the lowered query wins. -/
def wordCoat (ql : List Char) : Option ℕ :=
  match word_numbers.find? (fun p => containsSub (p.1 ++ " coat".toList) ql) with
  | some p => some p.2
  | none => none

/-- Python truthiness of the optional coat count (`None` and `0` are
falsy). -/
def coatTruthy : Option ℕ → Bool
  | some n => n != 0
  | none => false

/-- The value of `num_coats` after the word-number fallback block:
the digit match is kept when truthy, otherwise the word lexicon is
consulted and, failing that, the digit match (possibly `0` or `None`)
survives unchanged. -/
def resolvedCoats (ql : List Char) : Option ℕ :=
  if coatTruthy (searchDigitCoat ql) then searchDigitCoat ql
  else
    match wordCoat ql with
    | some w => some w
    | none => searchDigitCoat ql

/-- The dictionary returned on success by `extract_plastering_specs`. -/
structure SpecRequest where
  thickness_mm : ℚ
  num_coats : ℕ
deriving DecidableEq

/-- `IFCProcessor.extract_plastering_specs`; the final
`if thickness and num_coats` uses Python truthiness, so a field equal
to zero behaves like an absent field. -/
def extract_plastering_specs (query : List Char) : Option SpecRequest :=
  match searchThicknessMM (pyLower query), resolvedCoats (pyLower query) with
  | some t, some c =>
    if t = 0 ∨ c = 0 then none
    else some { thickness_mm := t, num_coats := c }
  | some _, none => none
  | none, _ => none

/-! ## Intent classification in `process_query` -/

/-- The six query intents of the `if/elif` chain of `process_query`. -/
inductive QueryIntent where
  | Plastering
  | WallInfo
  | DoorInfo
  | WindowInfo
  | SpaceInfo
  | GeneralSummary
deriving DecidableEq

/-- `any(word in query_lower for word in kws)`. -/
def kwAny (ql : List Char) (kws : List (List Char)) : Bool :=
  kws.any (fun kw => containsSub kw ql)

/-- Keyword set of the plastering branch. -/
def plasterKeywords : List (List Char) :=
  ["plaster".toList, "plastering".toList, "wall area".toList, "paint".toList]

/-- Keyword set of the wall branch. -/
def wallKeywords : List (List Char) := ["wall".toList, "walls".toList]

/-- Keyword set of the door branch. -/
def doorKeywords : List (List Char) := ["door".toList, "doors".toList]

/-- Keyword set of the window branch. -/
def windowKeywords : List (List Char) := ["window".toList, "windows".toList]

/-- Keyword set of the space branch. -/
def spaceKeywords : List (List Char) :=
  ["space".toList, "room".toList, "area".toList, "floor".toList]

/-- The intent dispatch of `IFCProcessor.process_query`: the `if/elif`
keyword chain, evaluated on the lowered query, in source order. -/
def process_query_intent (query : List Char) : QueryIntent :=
  if kwAny (pyLower query) plasterKeywords then QueryIntent.Plastering
  else if kwAny (pyLower query) wallKeywords then QueryIntent.WallInfo
  else if kwAny (pyLower query) doorKeywords then QueryIntent.DoorInfo
  else if kwAny (pyLower query) windowKeywords then QueryIntent.WindowInfo
  else if kwAny (pyLower query) spaceKeywords then QueryIntent.SpaceInfo
  else QueryIntent.GeneralSummary

/-! ## Concrete sample entities used by witnesses and counterexamples -/

/-- A wall carrying a single structured area quantity of 10 sqm. -/
def entityQ10 : IfcEntity :=
  { isDefinedBy :=
      [{ isRelDefinesByProperties := true
         relatingPropertyDefinition :=
           { isElementQuantity := true
             quantities := [{ isQuantityArea := true, areaValue := 10 }] } }]
    psets := [] }

/-- A wall carrying a single structured area quantity of 100 sqm. -/
def entityQ100 : IfcEntity :=
  { isDefinedBy :=
      [{ isRelDefinesByProperties := true
         relatingPropertyDefinition :=
           { isElementQuantity := true
             quantities := [{ isQuantityArea := true, areaValue := 100 }] } }]
    psets := [] }

/-- A wall whose one element quantity carries two area quantities. -/
def entityTwoAreas : IfcEntity :=
  { isDefinedBy :=
      [{ isRelDefinesByProperties := true
         relatingPropertyDefinition :=
           { isElementQuantity := true
             quantities :=
               [{ isQuantityArea := true, areaValue := 10 },
                { isQuantityArea := true, areaValue := 15 }] } }]
    psets := [] }

/-- An entity with no quantity definitions and no property sets. -/
def entityEmpty : IfcEntity := { isDefinedBy := [], psets := [] }

/-- A space with no structured quantities but a property set whose
`GrossArea` key carries the numeric value 5. -/
def entityPset5 : IfcEntity :=
  { isDefinedBy := []
    psets :=
      [{ isDict := true
         entries := [{ key := "GrossArea".toList, isNumeric := true, value := 5 }] }] }

/-- Removing an entity's property sets (used to express that the
property-set fallback was not consulted). -/
def stripPsets (e : IfcEntity) : IfcEntity := { e with psets := [] }

/-! ## Record counting

How many times each loop increments `walls_with_area`. -/

/-- Sum of `f` over a list. -/
def sumCounts {α : Type} (f : α → ℕ) : List α → ℕ
  | [] => 0
  | a :: l => f a + sumCounts f l

/-- Number of area quantities in one quantity list. -/
def m1CountQ : List IfcQuantity → ℕ
  | [] => 0
  | q :: qs => (if q.isQuantityArea then 1 else 0) + m1CountQ qs

/-- Number of area quantities one `IsDefinedBy` member contributes. -/
def m1CountD (d : IfcDefinition) : ℕ :=
  if d.isRelDefinesByProperties && d.relatingPropertyDefinition.isElementQuantity then
    m1CountQ d.relatingPropertyDefinition.quantities
  else 0

/-- Number of METHOD 1 records a wall contributes. -/
def m1Count (w : IfcEntity) : ℕ := sumCounts m1CountD w.isDefinedBy

/-- Number of METHOD 2 records one property set contributes (0 or 1). -/
def m2CountP (p : Pset) : ℕ :=
  if p.isDict then
    match p.entries.find? psetEntryMatches with
    | some _ => 1
    | none => 0
  else 0

/-- Number of METHOD 2 records a wall contributes. -/
def m2Count (w : IfcEntity) : ℕ := sumCounts m2CountP w.psets

/-! ## Bookkeeping lemmas -/

lemma sumCounts_le_length {α : Type} (f : α → ℕ) (l : List α)
    (h : ∀ a ∈ l, f a ≤ 1) : sumCounts f l ≤ l.length := by
  induction l with
  | nil => simp [sumCounts]
  | cons a l ih =>
    have h1 := h a (by simp)
    have h2 := ih (fun b hb => h b (by simp [hb]))
    simp only [sumCounts, List.length_cons]
    omega

lemma sumCounts_add {α : Type} (f g : α → ℕ) (l : List α) :
    sumCounts (fun a => f a + g a) l = sumCounts f l + sumCounts g l := by
  induction l with
  | nil => rfl
  | cons a l ih => simp only [sumCounts, ih]; omega

lemma method1Quantity_total_walls (a : PlasterResult) (q : IfcQuantity) :
    (method1Quantity a q).total_walls = a.total_walls := by
  unfold method1Quantity; split <;> rfl

lemma method1Quantity_wwa (a : PlasterResult) (q : IfcQuantity) :
    (method1Quantity a q).walls_with_area
      = a.walls_with_area + (if q.isQuantityArea then 1 else 0) := by
  unfold method1Quantity
  cases hq : q.isQuantityArea <;> simp [hq]

lemma foldl_method1Quantity_total_walls (qs : List IfcQuantity) (a : PlasterResult) :
    (qs.foldl method1Quantity a).total_walls = a.total_walls := by
  induction qs generalizing a with
  | nil => rfl
  | cons q qs ih => rw [List.foldl_cons, ih, method1Quantity_total_walls]

lemma foldl_method1Quantity_wwa (qs : List IfcQuantity) (a : PlasterResult) :
    (qs.foldl method1Quantity a).walls_with_area = a.walls_with_area + m1CountQ qs := by
  induction qs generalizing a with
  | nil => simp [m1CountQ]
  | cons q qs ih =>
    rw [List.foldl_cons, ih, method1Quantity_wwa]
    simp only [m1CountQ]
    cases hq : q.isQuantityArea
    all_goals simp [hq]
    all_goals omega

lemma method1Definition_total_walls (a : PlasterResult) (d : IfcDefinition) :
    (method1Definition a d).total_walls = a.total_walls := by
  unfold method1Definition; split
  · exact foldl_method1Quantity_total_walls _ _
  · rfl

lemma method1Definition_wwa (a : PlasterResult) (d : IfcDefinition) :
    (method1Definition a d).walls_with_area = a.walls_with_area + m1CountD d := by
  unfold method1Definition m1CountD
  cases hd : (d.isRelDefinesByProperties && d.relatingPropertyDefinition.isElementQuantity) <;>
    simp [hd, foldl_method1Quantity_wwa]

lemma method1Wall_total_walls (a : PlasterResult) (w : IfcEntity) :
    (method1Wall a w).total_walls = a.total_walls := by
  unfold method1Wall
  induction w.isDefinedBy generalizing a with
  | nil => rfl
  | cons d ds ih => rw [List.foldl_cons, ih, method1Definition_total_walls]

lemma method1Wall_wwa (a : PlasterResult) (w : IfcEntity) :
    (method1Wall a w).walls_with_area = a.walls_with_area + m1Count w := by
  unfold method1Wall m1Count
  induction w.isDefinedBy generalizing a with
  | nil => simp [sumCounts]
  | cons d ds ih =>
    rw [List.foldl_cons, ih, method1Definition_wwa]
    simp only [sumCounts]; omega

lemma foldl_method1Wall_total_walls (ws : List IfcEntity) (a : PlasterResult) :
    (ws.foldl method1Wall a).total_walls = a.total_walls := by
  induction ws generalizing a with
  | nil => rfl
  | cons w ws ih => rw [List.foldl_cons, ih, method1Wall_total_walls]

lemma foldl_method1Wall_wwa (ws : List IfcEntity) (a : PlasterResult) :
    (ws.foldl method1Wall a).walls_with_area = a.walls_with_area + sumCounts m1Count ws := by
  induction ws generalizing a with
  | nil => simp [sumCounts]
  | cons w ws ih =>
    rw [List.foldl_cons, ih, method1Wall_wwa]
    simp only [sumCounts]; omega

lemma method2Pset_total_walls (a : PlasterResult) (p : Pset) :
    (method2Pset a p).total_walls = a.total_walls := by
  unfold method2Pset
  cases hp : p.isDict <;> simp [hp]
  cases hf : p.entries.find? psetEntryMatches <;> simp [hf]

lemma method2Pset_wwa (a : PlasterResult) (p : Pset) :
    (method2Pset a p).walls_with_area = a.walls_with_area + m2CountP p := by
  unfold method2Pset m2CountP
  cases hp : p.isDict <;> simp [hp]
  cases hf : p.entries.find? psetEntryMatches <;> simp [hf]

lemma method2Wall_total_walls (a : PlasterResult) (w : IfcEntity) :
    (method2Wall a w).total_walls = a.total_walls := by
  unfold method2Wall
  induction w.psets generalizing a with
  | nil => rfl
  | cons p ps ih => rw [List.foldl_cons, ih, method2Pset_total_walls]

lemma method2Wall_wwa (a : PlasterResult) (w : IfcEntity) :
    (method2Wall a w).walls_with_area = a.walls_with_area + m2Count w := by
  unfold method2Wall m2Count
  induction w.psets generalizing a with
  | nil => simp [sumCounts]
  | cons p ps ih =>
    rw [List.foldl_cons, ih, method2Pset_wwa]
    simp only [sumCounts]; omega

lemma foldl_method2Wall_total_walls (ws : List IfcEntity) (a : PlasterResult) :
    (ws.foldl method2Wall a).total_walls = a.total_walls := by
  induction ws generalizing a with
  | nil => rfl
  | cons w ws ih => rw [List.foldl_cons, ih, method2Wall_total_walls]

lemma foldl_method2Wall_wwa (ws : List IfcEntity) (a : PlasterResult) :
    (ws.foldl method2Wall a).walls_with_area = a.walls_with_area + sumCounts m2Count ws := by
  induction ws generalizing a with
  | nil => simp [sumCounts]
  | cons w ws ih =>
    rw [List.foldl_cons, ih, method2Wall_wwa]
    simp only [sumCounts]; omega

lemma structuredPass_total_walls (ws : List IfcEntity) :
    (structuredPass ws).total_walls = ws.length := by
  unfold structuredPass
  rw [foldl_method1Wall_total_walls]; rfl

lemma structuredPass_wwa (ws : List IfcEntity) :
    (structuredPass ws).walls_with_area = sumCounts m1Count ws := by
  unfold structuredPass
  rw [foldl_method1Wall_wwa]
  simp [plasterInit]

lemma fallbackPass_total_walls (ws : List IfcEntity) :
    (fallbackPass ws).total_walls = ws.length := by
  unfold fallbackPass; split
  · rw [foldl_method2Wall_total_walls, structuredPass_total_walls]
  · exact structuredPass_total_walls ws

lemma fallbackPass_wwa_le (ws : List IfcEntity)
    (h : ∀ w ∈ ws, m1Count w + m2Count w ≤ 1) :
    (fallbackPass ws).walls_with_area ≤ ws.length := by
  unfold fallbackPass; split
  · rw [foldl_method2Wall_wwa, structuredPass_wwa, ← sumCounts_add]
    exact sumCounts_le_length _ _ h
  · rw [structuredPass_wwa]
    exact sumCounts_le_length _ _
      (fun w hw => le_trans (Nat.le_add_right _ _) (h w hw))

lemma finalEval_total_area (n : ℕ) (r : PlasterResult) :
    (finalEval n r).total_area = r.total_area := by
  unfold finalEval; split_ifs <;> rfl

lemma finalEval_wwa (n : ℕ) (r : PlasterResult) :
    (finalEval n r).walls_with_area = r.walls_with_area := by
  unfold finalEval; split_ifs <;> rfl

lemma finalEval_total_walls (n : ℕ) (r : PlasterResult) :
    (finalEval n r).total_walls = r.total_walls := by
  unfold finalEval; split_ifs <;> rfl

lemma finalEval_confidence_partial (n : ℕ) (r : PlasterResult)
    (h1 : 0 < r.total_area) (h2 : r.walls_with_area ≠ n) :
    (finalEval n r).confidence = Confidence.MEDIUM := by
  unfold finalEval
  rw [if_pos h1, if_neg h2]

/-! ## Property sets do not influence METHOD 1 -/

lemma plasterInit_map_strip (ws : List IfcEntity) :
    plasterInit (ws.map stripPsets) = plasterInit ws := by
  unfold plasterInit; rw [List.length_map]

lemma structuredPass_map_strip (ws : List IfcEntity) :
    structuredPass (ws.map stripPsets) = structuredPass ws := by
  unfold structuredPass
  rw [List.foldl_map, plasterInit_map_strip]
  have hfun : (fun (x : PlasterResult) (y : IfcEntity) => method1Wall x (stripPsets y))
      = method1Wall := by
    funext x y; rfl
  rw [hfun]

lemma fallbackPass_map_strip (ws : List IfcEntity)
    (h : (structuredPass ws).total_area ≠ 0) :
    fallbackPass (ws.map stripPsets) = fallbackPass ws := by
  unfold fallbackPass
  rw [structuredPass_map_strip, if_neg h, if_neg h]

/-! ## Substring containment survives `str.lower` -/

lemma leadsWith_map (f : Char → Char) :
    ∀ (n h : List Char), leadsWith n h = true → leadsWith (n.map f) (h.map f) = true := by
  intro n
  induction n with
  | nil => intro h _; rfl
  | cons a as ih =>
    intro h hh
    cases h with
    | nil => simp [leadsWith] at hh
    | cons b bs =>
      simp only [leadsWith, Bool.and_eq_true, beq_iff_eq] at hh
      simp only [List.map_cons, leadsWith, Bool.and_eq_true, beq_iff_eq]
      exact ⟨by rw [hh.1], ih bs hh.2⟩

lemma kwAny_of_mem {ql kw : List Char} {kws : List (List Char)}
    (hmem : kw ∈ kws) (h : containsSub kw ql = true) : kwAny ql kws = true := by
  unfold kwAny
  exact List.any_eq_true.mpr ⟨kw, hmem, h⟩

lemma containsSub_map (f : Char → Char) (n : List Char) :
    ∀ (h : List Char), containsSub n h = true → containsSub (n.map f) (h.map f) = true := by
  intro h
  induction h with
  | nil => intro hh; exact leadsWith_map f n [] hh
  | cons c rest ih =>
    intro hh
    simp only [containsSub, Bool.or_eq_true] at hh
    simp only [List.map_cons, containsSub, Bool.or_eq_true]
    rcases hh with h1 | h2
    · exact Or.inl (leadsWith_map f n (c :: rest) h1)
    · exact Or.inr (ih h2)

/-! ## Claims -/

/-- Counterexample to claim C1: one wall whose single element quantity
carries two area quantities yields `walls_with_area = 2` but
`total_walls = 1`, because the counter is incremented once per matching
quantity, not once per wall. -/
theorem c1_walls_with_area_counterexample :
    (calculate_plastering_area [entityTwoAreas]).total_walls
      < (calculate_plastering_area [entityTwoAreas]).walls_with_area := by decide

/-- Claim C1 (amended): `walls_with_area ≤ total_walls` holds after
`calculate_plastering_area` provided every wall carries at most one
matching area record in total (structured area quantities plus
property sets with a numeric area-keyed entry). -/
theorem c1_walls_with_area_amended (walls : List IfcEntity)
    (h : ∀ w ∈ walls, m1Count w + m2Count w ≤ 1) :
    (calculate_plastering_area walls).walls_with_area
      ≤ (calculate_plastering_area walls).total_walls := by
  unfold calculate_plastering_area
  by_cases hl : walls.length = 0
  · rw [if_pos hl]; simp [plasterInit]
  · rw [if_neg hl, finalEval_wwa, finalEval_total_walls, fallbackPass_total_walls]
    exact fallbackPass_wwa_le walls h

/-- Witness for the amended claim C1 at a concrete two-wall model. -/
theorem c1_walls_with_area_amended_witness :
    (∀ w ∈ [entityQ10, entityEmpty], m1Count w + m2Count w ≤ 1)
      ∧ (calculate_plastering_area [entityQ10, entityEmpty]).walls_with_area
          ≤ (calculate_plastering_area [entityQ10, entityEmpty]).total_walls :=
  ⟨by decide, c1_walls_with_area_amended [entityQ10, entityEmpty] (by decide)⟩

/-- Counterexample to claim C2: two spaces of which only the first
carries any area data (the second yields a total of 0 on its own):
`get_space_info` still reports confidence `HIGH`, not `MEDIUM` — the
space aggregation has no partial-coverage downgrade. -/
theorem c2_partial_coverage_counterexample :
    (get_space_info [entityQ10, entityEmpty]).total_area = 10
      ∧ (get_space_info [entityEmpty]).total_area = 0
      ∧ 0 < (get_space_info [entityQ10, entityEmpty]).total_area
      ∧ (get_space_info [entityQ10, entityEmpty]).confidence = Confidence.HIGH
      ∧ (get_space_info [entityQ10, entityEmpty]).confidence ≠ Confidence.MEDIUM := by
  decide

/-- Claim C2 (amended): the forced downgrade to `MEDIUM` on partial
coverage holds for the wall aggregation: whenever
`calculate_plastering_area` ends with a positive total and
`walls_with_area ≠ total_walls`, the confidence is `MEDIUM`.  (The
space aggregation has no such rule; see its counterexample.) -/
theorem c2_partial_coverage_amended (walls : List IfcEntity)
    (h1 : 0 < (calculate_plastering_area walls).total_area)
    (h2 : (calculate_plastering_area walls).walls_with_area
            ≠ (calculate_plastering_area walls).total_walls) :
    (calculate_plastering_area walls).confidence = Confidence.MEDIUM := by
  unfold calculate_plastering_area at h1 h2 ⊢
  by_cases hl : walls.length = 0
  · rw [if_pos hl] at h1
    simp [plasterInit] at h1
  · rw [if_neg hl] at h1 h2 ⊢
    rw [finalEval_total_area] at h1
    rw [finalEval_wwa, finalEval_total_walls, fallbackPass_total_walls] at h2
    exact finalEval_confidence_partial _ _ h1 h2

/-- Witness for the amended claim C2: a wall with data next to a wall
without data gives a positive partial total and confidence `MEDIUM`. -/
theorem c2_partial_coverage_amended_witness :
    0 < (calculate_plastering_area [entityQ10, entityEmpty]).total_area
      ∧ (calculate_plastering_area [entityQ10, entityEmpty]).walls_with_area
          ≠ (calculate_plastering_area [entityQ10, entityEmpty]).total_walls
      ∧ (calculate_plastering_area [entityQ10, entityEmpty]).confidence
          = Confidence.MEDIUM :=
  ⟨by decide, by decide,
   c2_partial_coverage_amended [entityQ10, entityEmpty] (by decide) (by decide)⟩

/-- Counterexample to claim C3: in `get_space_info` the property-set
fallback is gated per entity on the running total, not on the aggregate
structured total.  With a first space carrying only a property-set area
and a second space carrying a structured quantity, the structured
aggregate is 10 ≠ 0, yet the property-set value 5 is included (total
15), so stripping property sets changes the result. -/
theorem c3_fallback_scope_counterexample :
    spacesStructuredTotal [entityPset5, entityQ10] = 10
      ∧ (get_space_info [entityPset5, entityQ10]).total_area = 15
      ∧ get_space_info [entityPset5, entityQ10]
          ≠ get_space_info ([entityPset5, entityQ10].map stripPsets) := by
  decide

/-- Claim C3 (amended): for the wall aggregation the fallback is indeed
gated on the aggregate structured total — whenever that total is
nonzero the result is independent of all property sets; the space
aggregation does not satisfy this category-wide gating. -/
theorem c3_fallback_scope_amended :
    (∀ walls : List IfcEntity, wallsStructuredTotal walls ≠ 0 →
        calculate_plastering_area walls
          = calculate_plastering_area (walls.map stripPsets))
      ∧ ¬ (∀ spaces : List IfcEntity, spacesStructuredTotal spaces ≠ 0 →
        get_space_info spaces = get_space_info (spaces.map stripPsets)) := by
  constructor
  · intro walls h
    unfold calculate_plastering_area
    rw [List.length_map]
    by_cases hl : walls.length = 0
    · rw [if_pos hl, if_pos hl, plasterInit_map_strip]
    · rw [if_neg hl, if_neg hl, fallbackPass_map_strip walls h]
  · intro hall
    exact absurd (hall [entityPset5, entityQ10] (by decide)) (by decide)

/-- Witness for the amended claim C3: a wall with a nonzero structured
total gives the same aggregation with its property sets removed. -/
theorem c3_fallback_scope_amended_witness :
    wallsStructuredTotal [entityQ10] ≠ 0
      ∧ calculate_plastering_area [entityQ10]
          = calculate_plastering_area ([entityQ10].map stripPsets) :=
  ⟨by decide, c3_fallback_scope_amended.1 [entityQ10] (by decide)⟩

/-- Counterexample to claim C4: on an empty space set `get_space_info`
returns confidence `LOW` (the initial value), not `NONE`. -/
theorem c4_empty_category_counterexample :
    (get_space_info ([] : List IfcEntity)).total_area = 0
      ∧ (get_space_info ([] : List IfcEntity)).data_source = DataSource.NONE
      ∧ (get_space_info ([] : List IfcEntity)).confidence = Confidence.LOW
      ∧ (get_space_info ([] : List IfcEntity)).confidence ≠ Confidence.NONE := by
  decide

/-- Claim C4 (amended): an empty wall set yields total 0, data source
`NONE` and confidence `NONE`; an empty space set yields total 0 and
data source `NONE` but confidence `LOW`. -/
theorem c4_empty_category_amended :
    (calculate_plastering_area ([] : List IfcEntity)).total_area = 0
      ∧ (calculate_plastering_area ([] : List IfcEntity)).data_source = DataSource.NONE
      ∧ (calculate_plastering_area ([] : List IfcEntity)).confidence = Confidence.NONE
      ∧ (get_space_info ([] : List IfcEntity)).total_area = 0
      ∧ (get_space_info ([] : List IfcEntity)).data_source = DataSource.NONE
      ∧ (get_space_info ([] : List IfcEntity)).confidence = Confidence.LOW := by
  decide

/-- Claim C5: intents are tested in strict priority order — every query
containing "plaster" (and "door") classifies as `Plastering`, and every
query containing "wall" and "door" but no plastering keyword classifies
as `WallInfo`. -/
theorem c5_intent_precedence :
    (∀ q : List Char, containsSub ("plaster".toList) q = true →
        containsSub ("door".toList) q = true →
        process_query_intent q = QueryIntent.Plastering)
      ∧ (∀ q : List Char, containsSub ("wall".toList) q = true →
        containsSub ("door".toList) q = true →
        kwAny (pyLower q) plasterKeywords = false →
        process_query_intent q = QueryIntent.WallInfo) := by
  constructor
  · intro q h1 _
    have hp : containsSub ("plaster".toList) (pyLower q) = true := by
      have hm := containsSub_map Char.toLower ("plaster".toList) q h1
      rwa [(by decide : ("plaster".toList).map Char.toLower = "plaster".toList)] at hm
    have hk : kwAny (pyLower q) plasterKeywords = true :=
      kwAny_of_mem (List.mem_cons_self _ _) hp
    simp [process_query_intent, hk]
  · intro q h1 _ hpf
    have hw : containsSub ("wall".toList) (pyLower q) = true := by
      have hm := containsSub_map Char.toLower ("wall".toList) q h1
      rwa [(by decide : ("wall".toList).map Char.toLower = "wall".toList)] at hm
    have hk : kwAny (pyLower q) wallKeywords = true :=
      kwAny_of_mem (List.mem_cons_self _ _) hw
    simp [process_query_intent, hpf, hk]

/-- Witness for claim C5 at two concrete queries. -/
theorem c5_intent_precedence_witness :
    containsSub ("plaster".toList) ("plaster the door".toList) = true
      ∧ process_query_intent ("plaster the door".toList) = QueryIntent.Plastering
      ∧ kwAny (pyLower ("a wall and a door".toList)) plasterKeywords = false
      ∧ process_query_intent ("a wall and a door".toList) = QueryIntent.WallInfo :=
  ⟨by decide,
   c5_intent_precedence.1 ("plaster the door".toList) (by decide) (by decide),
   by decide,
   c5_intent_precedence.2 ("a wall and a door".toList) (by decide) (by decide) (by decide)⟩

/-- Claim C6: on the success path the pre-rounding volume equals
`A × (t/1000) × c` exactly, liters are `1000 ×` that, and the reported
fields are those values rounded to 4 and 2 decimal places. -/
theorem c6_volume_identity (walls : List IfcEntity) (t : ℚ) (c : ℕ) (mt : List Char)
    (h : 0 < (calculate_plastering_area walls).total_area) :
    rawVolumeM3 (calculate_plastering_area walls).total_area t c
        = (calculate_plastering_area walls).total_area * (t / 1000) * c
      ∧ rawVolumeLiters (calculate_plastering_area walls).total_area t c
          = 1000 * rawVolumeM3 (calculate_plastering_area walls).total_area t c
      ∧ ∃ r : VolumeOk,
          calculate_plastering_volume walls t c mt = VolumeResult.ok r
          ∧ r.volume_m3
              = roundTo ((calculate_plastering_area walls).total_area * (t / 1000) * c) 4
          ∧ r.volume_liters
              = roundTo (1000 * ((calculate_plastering_area walls).total_area * (t / 1000) * c)) 2 := by
  have hne : (calculate_plastering_area walls).total_area ≠ 0 := h.ne'
  refine ⟨by unfold rawVolumeM3; ring,
          by unfold rawVolumeLiters rawVolumeM3; ring, ?_⟩
  refine ⟨{ material_type := mt
            wall_area_sqm := (calculate_plastering_area walls).total_area
            thickness_per_coat_mm := t
            thickness_per_coat_m := t / 1000
            num_coats := c
            total_thickness_mm := t * c
            total_thickness_m := t / 1000 * c
            volume_m3 :=
              roundTo (rawVolumeM3 (calculate_plastering_area walls).total_area t c) 4
            volume_liters :=
              roundTo (rawVolumeLiters (calculate_plastering_area walls).total_area t c) 2
            data_source := (calculate_plastering_area walls).data_source
            confidence := (calculate_plastering_area walls).confidence }, ?_, ?_, ?_⟩
  · unfold calculate_plastering_volume
    rw [if_neg hne]
  · show roundTo (rawVolumeM3 (calculate_plastering_area walls).total_area t c) 4 = _
    congr 1
    unfold rawVolumeM3; ring
  · show roundTo (rawVolumeLiters (calculate_plastering_area walls).total_area t c) 2 = _
    congr 1
    unfold rawVolumeLiters rawVolumeM3; ring

/-- Witness for claim C6: one 100 sqm wall, 5 mm, 2 coats. -/
theorem c6_volume_identity_witness :
    0 < (calculate_plastering_area [entityQ100]).total_area
      ∧ (rawVolumeM3 (calculate_plastering_area [entityQ100]).total_area 5 2
            = (calculate_plastering_area [entityQ100]).total_area * ((5 : ℚ) / 1000) * 2
         ∧ rawVolumeLiters (calculate_plastering_area [entityQ100]).total_area 5 2
            = 1000 * rawVolumeM3 (calculate_plastering_area [entityQ100]).total_area 5 2
         ∧ ∃ r : VolumeOk,
            calculate_plastering_volume [entityQ100] 5 2 ("plaster".toList) = VolumeResult.ok r
            ∧ r.volume_m3
                = roundTo ((calculate_plastering_area [entityQ100]).total_area * ((5 : ℚ) / 1000) * 2) 4
            ∧ r.volume_liters
                = roundTo (1000 * ((calculate_plastering_area [entityQ100]).total_area * ((5 : ℚ) / 1000) * 2)) 2) :=
  ⟨by decide, c6_volume_identity [entityQ100] 5 2 ("plaster".toList) (by decide)⟩

/-- Counterexample to claim C7: "0mm and two coats" contains a
thickness phrase (parsed as 0) and a coat phrase (resolved as 2), yet
no SpecRequest is returned, so "returned iff both found" fails as
stated. -/
theorem c7_spec_both_fields_counterexample :
    searchThicknessMM (pyLower ("0mm and two coats".toList)) = some 0
      ∧ resolvedCoats (pyLower ("0mm and two coats".toList)) = some 2
      ∧ extract_plastering_specs ("0mm and two coats".toList) = none := by
  decide

/-- Claim C7 (amended): `extract_plastering_specs` returns a
SpecRequest iff both a thickness and a coat count were found *with
nonzero values*; in particular text with only one of the two fields
yields `none`. -/
theorem c7_spec_both_fields_amended (q : List Char) :
    (∃ r : SpecRequest, extract_plastering_specs q = some r)
      ↔ ((∃ t, searchThicknessMM (pyLower q) = some t ∧ t ≠ 0)
          ∧ (∃ c, resolvedCoats (pyLower q) = some c ∧ c ≠ 0)) := by
  unfold extract_plastering_specs
  cases ht : searchThicknessMM (pyLower q) with
  | none => simp [ht]
  | some t =>
    cases hc : resolvedCoats (pyLower q) with
    | none => simp [ht, hc]
    | some c =>
      simp only [ht, hc]
      by_cases h0 : t = 0 ∨ c = 0
      · rw [if_pos h0]
        simp only [Option.some.injEq]
        constructor
        · rintro ⟨r, hr⟩; cases hr
        · rintro ⟨⟨t', ht', hn⟩, ⟨c', hc', hcn⟩⟩
          cases ht'; cases hc'
          exact absurd h0 (by tauto)
      · rw [if_neg h0]
        push_neg at h0
        constructor
        · intro _
          exact ⟨⟨t, rfl, h0.1⟩, ⟨c, rfl, h0.2⟩⟩
        · intro _
          exact ⟨{ thickness_mm := t, num_coats := c }, rfl⟩

/-- Counterexample to claim C8: "0 coats and two coats of 5mm" contains
a digit-coat pattern (matching "0 coats"), yet the word lexicon is
still consulted and yields 2, so "fallback only when no digit-coat
pattern is present" fails as stated. -/
theorem c8_word_fallback_counterexample :
    searchDigitCoat (pyLower ("0 coats and two coats of 5mm".toList)) = some 0
      ∧ wordCoat (pyLower ("0 coats and two coats of 5mm".toList)) = some 2
      ∧ resolvedCoats (pyLower ("0 coats and two coats of 5mm".toList)) = some 2
      ∧ extract_plastering_specs ("0 coats and two coats of 5mm".toList)
          = some { thickness_mm := 5, num_coats := 2 } := by
  decide

/-- Claim C8 (amended): the word-number fallback is consulted exactly
when the digit-coat match is absent or parses to 0; a nonzero
digit-coat match is used directly and the lexicon is ignored. -/
theorem c8_word_fallback_amended :
    (∀ (q : List Char) (n : ℕ), searchDigitCoat q = some n → n ≠ 0 →
        resolvedCoats q = some n)
      ∧ (∀ q : List Char, searchDigitCoat q = none ∨ searchDigitCoat q = some 0 →
        resolvedCoats q = (match wordCoat q with
          | some w => some w
          | none => searchDigitCoat q)) := by
  constructor
  · intro q n hd hn
    unfold resolvedCoats
    rw [hd]
    simp [coatTruthy, hn]
  · intro q h
    unfold resolvedCoats
    rcases h with h | h <;> rw [h] <;> simp [coatTruthy]

/-- Witness for the amended claim C8 at two concrete queries. -/
theorem c8_word_fallback_amended_witness :
    searchDigitCoat ("3 coats".toList) = some 3
      ∧ resolvedCoats ("3 coats".toList) = some 3
      ∧ searchDigitCoat ("double coat please".toList) = none
      ∧ resolvedCoats ("double coat please".toList)
          = (match wordCoat ("double coat please".toList) with
             | some w => some w
             | none => searchDigitCoat ("double coat please".toList)) :=
  ⟨by decide,
   c8_word_fallback_amended.1 ("3 coats".toList) 3 (by decide) (by decide),
   by decide,
   c8_word_fallback_amended.2 ("double coat please".toList) (Or.inl (by decide))⟩

/-- Claim C9: whenever the aggregated wall area total is zero,
`calculate_plastering_volume` returns the structured failure dictionary
(`success = False`, explanatory error, zero volume) for every thickness
and coat count. -/
theorem c9_no_area_failure (walls : List IfcEntity) (t : ℚ) (c : ℕ) (mt : List Char)
    (h : (calculate_plastering_area walls).total_area = 0) :
    calculate_plastering_volume walls t c mt
      = VolumeResult.failure noAreaMsg 0 (calculate_plastering_area walls) := by
  unfold calculate_plastering_volume
  rw [if_pos h]

/-- Witness for claim C9: no walls at all, thickness 3 mm, 2 coats. -/
theorem c9_no_area_failure_witness :
    (calculate_plastering_area ([] : List IfcEntity)).total_area = 0
      ∧ calculate_plastering_volume [] 3 2 ("plaster".toList)
          = VolumeResult.failure noAreaMsg 0 (calculate_plastering_area []) :=
  ⟨by decide, c9_no_area_failure [] 3 2 ("plaster".toList) (by decide)⟩

/-- Claim C10: a parsed field whose value is zero is treated as absent:
a thickness parsed as 0 forces a `none` result, and a digit coat count
parsed as 0 hands control to the word lexicon (keeping 0 only when the
lexicon finds nothing). -/
theorem c10_zero_treated_absent :
    (∀ q : List Char, searchThicknessMM (pyLower q) = some 0 →
        extract_plastering_specs q = none)
      ∧ (∀ q : List Char, searchDigitCoat (pyLower q) = some 0 →
        resolvedCoats (pyLower q) = some ((wordCoat (pyLower q)).getD 0)) := by
  constructor
  · intro q ht
    unfold extract_plastering_specs
    rw [ht]
    cases hc : resolvedCoats (pyLower q) with
    | none => rfl
    | some c =>
      show (if (0 : ℚ) = 0 ∨ c = 0 then none else _) = none
      rw [if_pos (Or.inl rfl)]
  · intro q hd
    unfold resolvedCoats
    rw [hd]
    simp only [coatTruthy]
    cases hw : wordCoat (pyLower q) <;> simp [hw]

/-- Witness for claim C10 at two concrete queries. -/
theorem c10_zero_treated_absent_witness :
    searchThicknessMM (pyLower ("0mm one coat".toList)) = some 0
      ∧ extract_plastering_specs ("0mm one coat".toList) = none
      ∧ searchDigitCoat (pyLower ("0 coats 3mm".toList)) = some 0
      ∧ resolvedCoats (pyLower ("0 coats 3mm".toList))
          = some ((wordCoat (pyLower ("0 coats 3mm".toList))).getD 0) :=
  ⟨by decide, c10_zero_treated_absent.1 _ (by decide),
   by decide, c10_zero_treated_absent.2 _ (by decide)⟩

end IfcCore
